import Mathlib

/-!
Verification of the TripleO healthcheck probe (`health.py`).

The script is embedded shallowly: the configuration store is an already
parsed INI structure, the HTTP GET, the JSON decoder and the DBus restart
call are modelled by their results recorded in a `World`, and every
logging or IPC call site is recorded as an `Event` in a trace.  Uncaught
Python exceptions are modelled explicitly (CPython terminates with exit
status 1 on an unhandled exception).
-/

/-! ### JSON values and `json.dumps`

`json.loads` is an external collaborator; the model keeps the parsed value
(`Option JsonVal`, `none` meaning the body does not parse).  `json.dumps`
is re-implemented: default separators, `ensure_ascii` escaping.  Float
payloads are outside the model. -/

mutual

inductive JsonVal where
  | jnull : JsonVal
  | jbool : Bool → JsonVal
  | jint : Int → JsonVal
  | jstr : String → JsonVal
  | jarr : JsonArr → JsonVal
  | jobj : JsonObj → JsonVal

inductive JsonArr where
  | anil : JsonArr
  | acons : JsonVal → JsonArr → JsonArr

inductive JsonObj where
  | onil : JsonObj
  | ocons : String → JsonVal → JsonObj → JsonObj

end

/-- Decimal digit characters, used when rendering integers. -/
def digitChar10 (n : Nat) : Char :=
  match n % 10 with
  | 0 => '0' | 1 => '1' | 2 => '2' | 3 => '3' | 4 => '4'
  | 5 => '5' | 6 => '6' | 7 => '7' | 8 => '8' | _ => '9'

/-- Hexadecimal digit characters (lower case, as CPython's `json` emits). -/
def hexDigit16 (n : Nat) : Char :=
  match n % 16 with
  | 0 => '0' | 1 => '1' | 2 => '2' | 3 => '3' | 4 => '4'
  | 5 => '5' | 6 => '6' | 7 => '7' | 8 => '8' | 9 => '9'
  | 10 => 'a' | 11 => 'b' | 12 => 'c' | 13 => 'd' | 14 => 'e' | _ => 'f'

/-- Decimal digits of a natural number, most significant first. -/
def natDigits (n : Nat) (acc : List Char) : List Char :=
  if h : n < 10 then digitChar10 n :: acc
  else natDigits (n / 10) (digitChar10 (n % 10) :: acc)
  termination_by n
  decreasing_by exact Nat.div_lt_self (by omega) (by omega)

/-- Rendering of a Python `int`, as `str` does. -/
def intChars (i : Int) : List Char :=
  if i < 0 then '-' :: natDigits i.natAbs [] else natDigits i.natAbs []

/-- Hex digit of rank `k` (value `16 ^ k`) in a number. -/
def nibble (n k : Nat) : Char := hexDigit16 (n / 16 ^ k)

/-- One `\uXXXX` escape. -/
def uEscape (n : Nat) : List Char :=
  '\\' :: 'u' :: nibble n 3 :: nibble n 2 :: nibble n 1 :: [nibble n 0]

/-- Escaping of one character inside a JSON string, following
`json.dumps` with its default `ensure_ascii=True`: the two-character
escapes, `\u00XX` for other control characters, `\uXXXX` (surrogate
pairs above the basic plane) for non-ASCII. -/
def esc2 (c : Char) : List Char := '\\' :: [c]

def escapeChar (c : Char) : List Char :=
  if c = '"' then esc2 '"'
  else if c = '\\' then esc2 '\\'
  else if c = '\n' then esc2 'n'
  else if c = '\r' then esc2 'r'
  else if c = '\t' then esc2 't'
  else if c.toNat = 8 then esc2 'b'
  else if c.toNat = 12 then esc2 'f'
  else if c.toNat < 32 ∨ c.toNat ≥ 127 then
    if c.toNat ≥ 65536 then
      uEscape (55296 + (c.toNat - 65536) / 1024) ++ uEscape (56320 + (c.toNat - 65536) % 1024)
    else uEscape c.toNat
  else [c]

/-- Escaped JSON rendering of a string, surrounding quotes included. -/
def escapeString (s : String) : List Char :=
  '"' :: s.data.foldr (fun c acc => escapeChar c ++ acc) ['"']

mutual

/-- Characters of `json.dumps` for a value (default separators `, ` and `: `). -/
def dumpVal : JsonVal → List Char
  | .jnull => ['n', 'u', 'l', 'l']
  | .jbool true => ['t', 'r', 'u', 'e']
  | .jbool false => ['f', 'a', 'l', 's', 'e']
  | .jint i => intChars i
  | .jstr s => escapeString s
  | .jarr a => '[' :: (dumpArr a ++ [']'])
  | .jobj o => '{' :: (dumpObj o ++ ['}'])

/-- Comma-and-space separated renderings of the elements of an array. -/
def dumpArr : JsonArr → List Char
  | .anil => []
  | .acons v .anil => dumpVal v
  | .acons v (.acons w tl) => dumpVal v ++ ',' :: ' ' :: dumpArr (.acons w tl)

/-- Comma-and-space separated `"key": value` renderings of an object. -/
def dumpObj : JsonObj → List Char
  | .onil => []
  | .ocons k v .onil => escapeString k ++ ':' :: ' ' :: dumpVal v
  | .ocons k v (.ocons k2 v2 tl) =>
      escapeString k ++ ':' :: ' ' :: dumpVal v ++ ',' :: ' ' :: dumpObj (.ocons k2 v2 tl)

end

/-- Rendered one-line JSON payload, as the script hands it to `logger.info`. -/
def dumps (v : JsonVal) : String := String.mk (dumpVal v)

/-! ### Python primitives used by the script -/

/-- Characters `int(str)` strips before parsing. -/
def isPySpace (c : Char) : Bool :=
  c = ' ' ∨ c = '\t' ∨ c = '\n' ∨ c = '\x0b' ∨ c = '\x0c' ∨ c = '\r'

/-- ASCII decimal digit test. -/
def isDigit10 (c : Char) : Bool := 48 ≤ c.toNat ∧ c.toNat ≤ 57

/-- Numeric value of an ASCII digit. -/
def digitVal (c : Char) : Nat := c.toNat - 48

/-- Remaining digits of a Python integer literal: digits, with single
underscores allowed between digits only. -/
def pyIntGo : List Char → Nat → Option Nat
  | [], acc => some acc
  | c :: tl, acc =>
    if isDigit10 c then pyIntGo tl (acc * 10 + digitVal c)
    else if c = '_' then
      match tl with
      | [] => none
      | d :: tl2 => if isDigit10 d then pyIntGo tl2 (acc * 10 + digitVal d) else none
    else none

/-- Digit part of a Python integer literal (must start with a digit). -/
def pyIntDigits : List Char → Option Nat
  | [] => none
  | c :: tl => if isDigit10 c then pyIntGo tl (digitVal c) else none

/-- Python `int(s)`: surrounding whitespace stripped, optional sign,
decimal digits; `none` models the `ValueError`. -/
def pyInt (s : String) : Option Int :=
  let cs := ((s.data.dropWhile isPySpace).reverse.dropWhile isPySpace).reverse
  match cs with
  | '+' :: tl => (pyIntDigits tl).map (fun n => (n : Int))
  | '-' :: tl => (pyIntDigits tl).map (fun n => -(n : Int))
  | _ => (pyIntDigits cs).map (fun n => (n : Int))

/-- ASCII lower-casing, as `str.lower` does on the values involved. -/
def pyLower (s : String) : String := String.mk (s.data.map Char.toLower)

/-- The `BOOLEAN_STATES` of `configparser`: the recognised spellings of a
boolean value (looked up lower-cased), `none` models the `ValueError`. -/
def pyConfigBool (s : String) : Option Bool :=
  let v := pyLower s
  if v = "1" ∨ v = "yes" ∨ v = "true" ∨ v = "on" then some true
  else if v = "0" ∨ v = "no" ∨ v = "false" ∨ v = "off" then some false
  else none

/-- Python `str.split(sep)` for a one-character separator: splits at every
occurrence and keeps empty pieces, so `''.split(',') = ['']`. -/
def pySplitChar (cs : List Char) (sep : Char) (acc : List Char) : List String :=
  match cs with
  | [] => [String.mk acc.reverse]
  | c :: tl =>
    if c = sep then String.mk acc.reverse :: pySplitChar tl sep []
    else pySplitChar tl sep (c :: acc)

/-- Index of the last occurrence of a character, CPython's `str.rfind`
(with `none` for `-1`). -/
def rfindIdx : List Char → Char → Option Nat
  | [], _ => none
  | c :: tl, x =>
    match rfindIdx tl x with
    | some i => some (i + 1)
    | none => if c = x then some 0 else none

/-- Root part of `os.path.splitext` (posix rules): split at the last dot,
unless that dot lies at or before the start of the basename's non-dot
characters — a basename consisting of leading dots only has no extension. -/
def splitextRoot (p : String) : String :=
  let cs := p.data
  match rfindIdx cs '.' with
  | none => p
  | some d =>
    let fi : Nat :=
      match rfindIdx cs '/' with
      | none => 0
      | some s => s + 1
    if fi ≤ d then
      if ((cs.take d).drop fi).any (fun c => c ≠ '.') then String.mk (cs.take d) else p
    else p

/-! ### The configuration store (`configparser`)

The `World` holds the already parsed section structure; INI syntax and
the `DEFAULT` section are outside the model, and option keys are taken
as already lower-cased by `optionxform`. -/

/-- One section: ordered key/value pairs. -/
def IniSect : Type := List (String × String)

/-- A parsed configuration store: named sections. -/
def IniConfig : Type := List (String × IniSect)

/-- Lookup of a section by name. -/
def cfgFindSect (cfg : IniConfig) (sec : String) : Option IniSect :=
  match cfg with
  | [] => none
  | (n, s) :: tl => if n = sec then some s else cfgFindSect tl sec

/-- Lookup of an option inside a section. -/
def sectGet (s : IniSect) (key : String) : Option String :=
  match s with
  | [] => none
  | (k, v) :: tl => if k = key then some v else sectGet tl key

/-- Raw option lookup, `ConfigParser.get` without fallback. -/
def cfgGet (cfg : IniConfig) (sec key : String) : Option String :=
  match cfgFindSect cfg sec with
  | none => none
  | some s => sectGet s key

/-- Option lookup with a `fallback=` default. -/
def cfgGetD (cfg : IniConfig) (sec key dflt : String) : String :=
  match cfgGet cfg sec key with
  | none => dflt
  | some v => v

/-- `ConfigParser.has_section`. -/
def cfgHasSection (cfg : IniConfig) (sec : String) : Bool :=
  (cfgFindSect cfg sec).isSome

/-! ### Exceptions, events and the world -/

/-- Python exceptions the script can let escape. -/
inductive PyExc where
  | noOptionError : String → String → PyExc
  | valueError : String → PyExc
  | jsonDecodeError : PyExc
deriving DecidableEq

/-- Observable actions of one run: logging calls (with the rendered
message), the HTTP GET, and the DBus `RestartUnit` call (unit name and
mode). -/
inductive Event where
  | logDebug : String → Event
  | logInfo : String → Event
  | logCritical : String → Event
  | httpGet : String → Event
  | restartUnit : String → String → Event
deriving DecidableEq

/-- Result of `requests.get`: a connection error (with its rendered
message) or a response, kept as the status code together with the result
of `json.loads` on its body text. -/
inductive HttpResult where
  | connError : String → HttpResult
  | ok : Nat → Option JsonVal → HttpResult

/-- Everything external a single run can observe: the configuration file,
the HTTP layer and the DBus restart call (`some msg` = the
`DBusException` it raises, `none` = success). -/
structure World where
  configFileExists : Bool
  config : IniConfig
  http : HttpResult
  dbusError : Option String

/-- Parsed command line: the positional `SERVICE` and the `--debug` flag. -/
structure Args where
  service : String
  debug : Bool

/-- How `run_check` (with the nested `__restart_service`) ends: a normal
`return` value, a `sys.exit` from inside the restart handler, or an
uncaught exception. -/
inductive CheckOutcome where
  | ret : Nat → CheckOutcome
  | exitNow : Nat → CheckOutcome
  | exc : PyExc → CheckOutcome
deriving DecidableEq

/-- How the whole process ends: `sys.exit` from the `__main__` block,
`sys.exit` from inside `__restart_service`, or an uncaught exception. -/
inductive RunResult where
  | exitMain : Nat → RunResult
  | exitRestart : Nat → RunResult
  | uncaught : PyExc → RunResult
deriving DecidableEq

/-- Process exit status: `sys.exit(n)` gives `n`; CPython terminates with
status 1 on an uncaught exception. -/
def exitStatus : RunResult → Nat
  | .exitMain c => c
  | .exitRestart c => c
  | .uncaught _ => 1

/-! ### The script itself -/

/-- The four per-service settings `run_check` reads before issuing the
GET (in the source's evaluation order: `tls`, then `host`, `port`,
`endpoint` while formatting the URI). -/
structure Fields where
  tls : Bool
  host : String
  port : Int
  endpoint : String
deriving DecidableEq

/-- `ConfigParser.getboolean(sec, key, fallback)` — the fallback covers a
missing option only; a present but unrecognised value raises `ValueError`. -/
def getbooleanFb (cfg : IniConfig) (sec key : String) (fb : Bool) : Except PyExc Bool :=
  match cfgGet cfg sec key with
  | none => .ok fb
  | some s =>
    match pyConfigBool s with
    | some b => .ok b
    | none => .error (.valueError ("Not a boolean: " ++ s))

/-- `ConfigParser.get(sec, key)` without fallback: `NoOptionError` when absent. -/
def getReq (cfg : IniConfig) (sec key : String) : Except PyExc String :=
  match cfgGet cfg sec key with
  | none => .error (.noOptionError key sec)
  | some s => .ok s

/-- `ConfigParser.getint(sec, key)` without fallback: `NoOptionError` when
absent, `ValueError` when not an integer. -/
def getintReq (cfg : IniConfig) (sec key : String) : Except PyExc Int :=
  match cfgGet cfg sec key with
  | none => .error (.noOptionError key sec)
  | some s =>
    match pyInt s with
    | some i => .ok i
    | none => .error (.valueError ("invalid literal for int with base 10: " ++ s))

/-- The reads `run_check` performs up to the URI (health.py lines 64-71),
in source order. -/
def getFields (cfg : IniConfig) (srv : String) : Except PyExc Fields := do
  let tls ← getbooleanFb cfg srv "tls" false
  let host ← getReq cfg srv "host"
  let port ← getintReq cfg srv "port"
  let ep ← getReq cfg srv "endpoint"
  .ok { tls := tls, host := host, port := port, endpoint := ep }

/-- The URI of health.py line 67: scheme from `tls`, then host, port, endpoint. -/
def buildUri (f : Fields) : String :=
  "http" ++ (if f.tls then "s" else "") ++ "://" ++ f.host ++ ":"
    ++ String.mk (intChars f.port) ++ f.endpoint

/-- The `on_failure_classes` parse of health.py lines 80-83: the raw value
(fallback the empty string) split on commas. -/
def parseOnFailureClasses (cfg : IniConfig) (srv : String) : List String :=
  pySplitChar (cfgGetD cfg srv "on_failure_classes" "").data ',' []

/-- Rendered `logger.info` confirmation of a successful restart request
(source spelling kept). -/
def restartOkMsg (srv : String) : String :=
  "Successfuly requested restart on " ++ srv ++ " service"

/-- The `Healthcheck.run_check` method (with the nested
`__restart_service`), as a function of the section data, the resolved
service name and the external world, returning the trace of its calls
and how it ends. -/
def run_check (cfg : IniConfig) (srv : String) (http : HttpResult)
    (dbusError : Option String) : List Event × CheckOutcome :=
  match getFields cfg srv with
  | .error e => ([], .exc e)
  | .ok f =>
    let uri := buildUri f
    let ev0 := [Event.logDebug ("Running check against " ++ uri), Event.httpGet uri]
    match http with
    | .connError m => (ev0 ++ [Event.logCritical m], .ret 1)
    | .ok statusCode bodyJson =>
      let ofc := parseOnFailureClasses cfg srv
      match bodyJson with
      | none => (ev0, .exc .jsonDecodeError)
      | some j =>
        let healthy : Bool := statusCode = 200 ∨ statusCode = 204
        let ev1 := ev0 ++ [Event.logInfo (dumps j)]
        let fa := cfgGetD cfg srv "failure_action" ""
        if !healthy && fa = "restart" then
          let ev2 := ev1 ++ [Event.logDebug ("Trying to request restart on " ++ srv ++ " service"),
                             Event.restartUnit (srv ++ ".service") "fail"]
          match dbusError with
          | some m => (ev2 ++ [Event.logCritical m], .exitNow 1)
          | none =>
            (ev2 ++ [Event.logInfo (restartOkMsg srv)],
             .ret (if healthy then 0 else 1))
        else (ev1, .ret (if healthy then 0 else 1))

/-- The fixed configuration path and the rendered `FileNotFoundError` text. -/
def cfileMissingMsg : String :=
  "Configuration file not found at ./tripleo-healthchecks.conf"

/-- Rendered `LookupError` text for a missing section. -/
def noSectionMsg (srv : String) : String :=
  "No configuration found for " ++ srv

/-- Name of the per-service logger built in `Healthcheck.__init__`. -/
def loggerName (srv : String) : String := "healthcheck." ++ srv

/-- Lift of `run_check`'s ending to the process level: its return value is
fed to `sys.exit`, its inner `sys.exit` and uncaught exceptions pass through. -/
def mapOutcome : CheckOutcome → RunResult
  | .ret c => .exitMain c
  | .exitNow c => .exitRestart c
  | .exc e => .uncaught e

/-- The `__main__` block: resolve the service identity, load the
configuration (exit 2 on either failure), then run the check. -/
def runMain (a : Args) (w : World) : List Event × RunResult :=
  let srv := splitextRoot a.service
  let ev0 := [Event.logDebug ("Loading healthcheck for " ++ a.service)]
  if w.configFileExists then
    if cfgHasSection w.config srv then
      let p := run_check w.config srv w.http w.dbusError
      (ev0 ++ p.1, mapOutcome p.2)
    else (ev0 ++ [Event.logCritical (noSectionMsg srv)], .exitMain 2)
  else (ev0 ++ [Event.logCritical cfileMissingMsg], .exitMain 2)

/-- The DBus restart calls recorded in a trace. -/
def restartCalls (tr : List Event) : List (String × String) :=
  tr.filterMap (fun e =>
    match e with
    | Event.restartUnit u m => some (u, m)
    | _ => none)

/-- Whether an event is the DBus restart call. -/
def isRestartEvent : Event → Bool
  | Event.restartUnit _ _ => true
  | _ => false

/-- Number of occurrences of an event in a trace. -/
def countEvent (tr : List Event) (e : Event) : Nat :=
  (tr.filter (fun x => x = e)).length

/-! ### Path lemmas for `run_check` and `runMain` -/


theorem runMain_eq_check (a : Args) (w : World)
    (hcf : w.configFileExists = true)
    (hsec : cfgHasSection w.config (splitextRoot a.service) = true) :
    runMain a w =
      (Event.logDebug ("Loading healthcheck for " ++ a.service) ::
        (run_check w.config (splitextRoot a.service) w.http w.dbusError).1,
       mapOutcome (run_check w.config (splitextRoot a.service) w.http w.dbusError).2) := by
  simp [runMain, hcf, hsec]

theorem run_check_fields_err (cfg : IniConfig) (srv : String) (http : HttpResult)
    (db : Option String) (e : PyExc) (hf : getFields cfg srv = .error e) :
    run_check cfg srv http db = ([], .exc e) := by
  unfold run_check
  rw [hf]

theorem run_check_conn (cfg : IniConfig) (srv : String) (db : Option String)
    (m : String) (f : Fields) (hf : getFields cfg srv = .ok f) :
    run_check cfg srv (.connError m) db =
      ([Event.logDebug ("Running check against " ++ buildUri f),
        Event.httpGet (buildUri f), Event.logCritical m], .ret 1) := by
  unfold run_check
  rw [hf]
  rfl

theorem run_check_nojson (cfg : IniConfig) (srv : String) (db : Option String)
    (s : Nat) (f : Fields) (hf : getFields cfg srv = .ok f) :
    run_check cfg srv (.ok s none) db =
      ([Event.logDebug ("Running check against " ++ buildUri f),
        Event.httpGet (buildUri f)], .exc .jsonDecodeError) := by
  unfold run_check
  rw [hf]

theorem run_check_norestart (cfg : IniConfig) (srv : String) (db : Option String)
    (s : Nat) (j : JsonVal) (f : Fields) (hf : getFields cfg srv = .ok f)
    (hnr : s = 200 ∨ s = 204 ∨ cfgGetD cfg srv "failure_action" "" ≠ "restart") :
    run_check cfg srv (.ok s (some j)) db =
      ([Event.logDebug ("Running check against " ++ buildUri f),
        Event.httpGet (buildUri f), Event.logInfo (dumps j)],
       .ret (if s = 200 ∨ s = 204 then 0 else 1)) := by
  unfold run_check
  rw [hf]
  rcases hnr with h | h | h
  · simp [h]
  · simp [h]
  · by_cases h2 : s = 200 ∨ s = 204
    · simp [h2]
    · push_neg at h2
      simp [h2.1, h2.2, h]

theorem run_check_restart_ok (cfg : IniConfig) (srv : String)
    (s : Nat) (j : JsonVal) (f : Fields) (hf : getFields cfg srv = .ok f)
    (hs : ¬(s = 200 ∨ s = 204))
    (hfa : cfgGetD cfg srv "failure_action" "" = "restart") :
    run_check cfg srv (.ok s (some j)) none =
      ([Event.logDebug ("Running check against " ++ buildUri f),
        Event.httpGet (buildUri f), Event.logInfo (dumps j),
        Event.logDebug ("Trying to request restart on " ++ srv ++ " service"),
        Event.restartUnit (srv ++ ".service") "fail",
        Event.logInfo (restartOkMsg srv)], .ret 1) := by
  unfold run_check
  rw [hf]
  push_neg at hs
  simp [hs.1, hs.2, hfa]

theorem run_check_restart_fail (cfg : IniConfig) (srv : String)
    (s : Nat) (j : JsonVal) (f : Fields) (m : String) (hf : getFields cfg srv = .ok f)
    (hs : ¬(s = 200 ∨ s = 204))
    (hfa : cfgGetD cfg srv "failure_action" "" = "restart") :
    run_check cfg srv (.ok s (some j)) (some m) =
      ([Event.logDebug ("Running check against " ++ buildUri f),
        Event.httpGet (buildUri f), Event.logInfo (dumps j),
        Event.logDebug ("Trying to request restart on " ++ srv ++ " service"),
        Event.restartUnit (srv ++ ".service") "fail",
        Event.logCritical m], .exitNow 1) := by
  unfold run_check
  rw [hf]
  push_neg at hs
  simp [hs.1, hs.2, hfa]
/-! ### Facts about the rendered payload -/

theorem hexDigit16_ne_nl (n : Nat) : hexDigit16 n ≠ '\n' := by
  unfold hexDigit16
  have h : n % 16 < 16 := Nat.mod_lt n (by omega)
  interval_cases h2 : n % 16 <;> decide

theorem digitChar10_ne_nl (n : Nat) : digitChar10 n ≠ '\n' := by
  unfold digitChar10
  have h : n % 10 < 10 := Nat.mod_lt n (by omega)
  interval_cases h2 : n % 10 <;> decide

theorem natDigits_head (n : Nat) :
    ∀ acc : List Char, ∃ m tl, natDigits n acc = digitChar10 m :: tl := by
  induction n using Nat.strong_induction_on with
  | _ n ih =>
    intro acc
    unfold natDigits
    by_cases h : n < 10
    · exact ⟨n, acc, by simp [h]⟩
    · have := ih (n / 10) (Nat.div_lt_self (by omega) (by omega))
      simpa [h] using this _

theorem natDigits_no_nl (n : Nat) :
    ∀ acc : List Char, '\n' ∉ acc → '\n' ∉ natDigits n acc := by
  induction n using Nat.strong_induction_on with
  | _ n ih =>
    intro acc hacc
    unfold natDigits
    by_cases h : n < 10
    · simp only [h, dite_true]
      intro hmem
      rcases List.mem_cons.mp hmem with h1 | h1
      · exact digitChar10_ne_nl n h1.symm
      · exact hacc h1
    · simp only [h, dite_false]
      refine ih (n / 10) (Nat.div_lt_self (by omega) (by omega)) _ ?_
      intro hmem
      rcases List.mem_cons.mp hmem with h1 | h1
      · exact digitChar10_ne_nl (n % 10) h1.symm
      · exact hacc h1

theorem intChars_no_nl (i : Int) : '\n' ∉ intChars i := by
  unfold intChars
  by_cases h : i < 0
  · simp only [h, if_true]
    intro hmem
    rcases List.mem_cons.mp hmem with h1 | h1
    · simp at h1
    · exact natDigits_no_nl _ _ (by simp) h1
  · simp only [h, if_false]
    exact natDigits_no_nl _ _ (by simp)

theorem uEscape_no_nl (n : Nat) : '\n' ∉ uEscape n := by
  unfold uEscape
  intro hmem
  simp only [List.mem_cons, List.mem_singleton] at hmem
  rcases hmem with h | h | h | h | h | h | h
  · simp at h
  · simp at h
  · exact hexDigit16_ne_nl _ h.symm
  · exact hexDigit16_ne_nl _ h.symm
  · exact hexDigit16_ne_nl _ h.symm
  · exact hexDigit16_ne_nl _ h.symm
  · simp at h

theorem escapeChar_no_nl (c : Char) : '\n' ∉ escapeChar c := by
  unfold escapeChar
  split
  · decide
  next =>
    split
    · decide
    next =>
      split
      · decide
      next hq hb hn =>
        split
        · decide
        next =>
          split
          · decide
          next =>
            split
            · decide
            next =>
              split
              · decide
              next =>
                split
                · split
                  · intro hmem
                    rcases List.mem_append.mp hmem with h | h
                    · exact uEscape_no_nl _ h
                    · exact uEscape_no_nl _ h
                  · exact uEscape_no_nl _
                · intro hmem
                  rcases List.mem_singleton.mp hmem with rfl
                  exact hn rfl

theorem escFold_no_nl (cs : List Char) :
    '\n' ∉ cs.foldr (fun c acc => escapeChar c ++ acc) ['"'] := by
  induction cs with
  | nil => decide
  | cons c tl ih =>
    intro hmem
    rcases List.mem_append.mp hmem with h | h
    · exact escapeChar_no_nl c h
    · exact ih h

theorem escapeString_no_nl (s : String) : '\n' ∉ escapeString s := by
  unfold escapeString
  intro hmem
  rcases List.mem_cons.mp hmem with h | h
  · simp at h
  · exact escFold_no_nl _ h

mutual

theorem dumpVal_no_nl : ∀ v : JsonVal, '\n' ∉ dumpVal v
  | .jnull => by decide
  | .jbool true => by decide
  | .jbool false => by decide
  | .jint i => intChars_no_nl i
  | .jstr s => escapeString_no_nl s
  | .jarr a => by
      have h := dumpArr_no_nl a
      intro hmem
      simp only [dumpVal] at hmem
      simp [List.mem_append, List.mem_cons, h] at hmem
  | .jobj o => by
      have h := dumpObj_no_nl o
      intro hmem
      simp only [dumpVal] at hmem
      simp [List.mem_append, List.mem_cons, h] at hmem

theorem dumpArr_no_nl : ∀ a : JsonArr, '\n' ∉ dumpArr a
  | .anil => by simp [dumpArr]
  | .acons v .anil => by
      have h := dumpVal_no_nl v
      simpa [dumpArr] using h
  | .acons v (.acons w tl) => by
      have h1 := dumpVal_no_nl v
      have h2 := dumpArr_no_nl (.acons w tl)
      intro hmem
      simp only [dumpArr] at hmem
      simp [List.mem_append, List.mem_cons, h1, h2] at hmem

theorem dumpObj_no_nl : ∀ o : JsonObj, '\n' ∉ dumpObj o
  | .onil => by simp [dumpObj]
  | .ocons k v .onil => by
      have h1 := escapeString_no_nl k
      have h2 := dumpVal_no_nl v
      intro hmem
      simp only [dumpObj] at hmem
      simp [List.mem_append, List.mem_cons, h1, h2] at hmem
  | .ocons k v (.ocons k2 v2 tl) => by
      have h1 := escapeString_no_nl k
      have h2 := dumpVal_no_nl v
      have h3 := dumpObj_no_nl (.ocons k2 v2 tl)
      intro hmem
      simp only [dumpObj] at hmem
      simp [List.mem_append, List.mem_cons, h1, h2, h3] at hmem

end

/-- Single-line property of the rendered payload. -/
theorem dumps_no_newline (v : JsonVal) : '\n' ∉ (dumps v).data := by
  unfold dumps
  exact dumpVal_no_nl v

theorem digitChar10_ne_S (n : Nat) : digitChar10 n ≠ 'S' := by
  unfold digitChar10
  have h : n % 10 < 10 := Nat.mod_lt n (by omega)
  interval_cases h2 : n % 10 <;> decide

theorem intChars_head_ne_S (i : Int) : (intChars i).head? ≠ some 'S' := by
  unfold intChars
  by_cases h : i < 0
  · simp [h]
  · simp only [h, if_false]
    obtain ⟨m, tl, he⟩ := natDigits_head i.natAbs []
    rw [he]
    intro hc
    exact digitChar10_ne_S m (by simpa using hc)

theorem dumpVal_head_ne_S (v : JsonVal) : (dumpVal v).head? ≠ some 'S' := by
  cases v with
  | jnull => decide
  | jbool b => cases b <;> decide
  | jint i => exact intChars_head_ne_S i
  | jstr s => simp [dumpVal, escapeString]
  | jarr a => simp [dumpVal]
  | jobj o => simp [dumpVal]

theorem restartOkMsg_head (srv : String) : (restartOkMsg srv).data.head? = some 'S' := by
  unfold restartOkMsg
  rw [String.data_append, String.data_append]
  rw [List.head?_append_of_ne_nil _ (by
    intro hnil
    have := congrArg List.length hnil
    simp at this)]
  rw [List.head?_append_of_ne_nil _ (by decide)]
  decide

/-- The rendered payload line is never the restart confirmation line. -/
theorem dumps_ne_restartOkMsg (v : JsonVal) (srv : String) :
    dumps v ≠ restartOkMsg srv := by
  intro h
  have h2 := congrArg (fun s => s.data.head?) h
  simp only [dumps] at h2
  rw [restartOkMsg_head] at h2
  exact dumpVal_head_ne_S v h2
/-! ### Exit-status helpers -/

theorem check_exit_json (cfg : IniConfig) (srv : String) (db : Option String)
    (s : Nat) (j : JsonVal) (f : Fields) (hf : getFields cfg srv = .ok f) :
    exitStatus (mapOutcome (run_check cfg srv (.ok s (some j)) db).2)
      = if s = 200 ∨ s = 204 then 0 else 1 := by
  by_cases hs : s = 200 ∨ s = 204
  · rw [run_check_norestart cfg srv db s j f hf (by tauto)]
    simp [mapOutcome, exitStatus, hs]
  · by_cases hfa : cfgGetD cfg srv "failure_action" "" = "restart"
    · cases db with
      | none =>
        rw [run_check_restart_ok cfg srv s j f hf hs hfa]
        simp [mapOutcome, exitStatus, hs]
      | some m =>
        rw [run_check_restart_fail cfg srv s j f m hf hs hfa]
        simp [mapOutcome, exitStatus, hs]
    · rw [run_check_norestart cfg srv db s j f hf (Or.inr (Or.inr hfa))]
      simp [mapOutcome, exitStatus, hs]

theorem check_exit_cases (cfg : IniConfig) (srv : String) (http : HttpResult)
    (db : Option String) :
    exitStatus (mapOutcome (run_check cfg srv http db).2) = 0 ∨
      exitStatus (mapOutcome (run_check cfg srv http db).2) = 1 := by
  cases hf : getFields cfg srv with
  | error e =>
    rw [run_check_fields_err cfg srv http db e hf]
    simp [mapOutcome, exitStatus]
  | ok f =>
    cases http with
    | connError m =>
      rw [run_check_conn cfg srv db m f hf]
      simp [mapOutcome, exitStatus]
    | ok s bodyJson =>
      cases bodyJson with
      | none =>
        rw [run_check_nojson cfg srv db s f hf]
        simp [mapOutcome, exitStatus]
      | some j =>
        rw [check_exit_json cfg srv db s j f hf]
        by_cases hs : s = 200 ∨ s = 204 <;> simp [hs]

/-! ### Claim theorems -/

/-- C1: in every run in which the HTTP GET completes and the response body
parses as JSON, the health outcome is decided by the HTTP status code
alone — status 200 or 204 exits 0 (healthy), any other status exits 1
(unhealthy) — and replacing the JSON payload by any other parsed payload
leaves the exit status unchanged. -/
theorem claim_C1_health_by_status_only (a : Args) (w : World) (f : Fields)
    (s : Nat) (j : JsonVal)
    (hcf : w.configFileExists = true)
    (hsec : cfgHasSection w.config (splitextRoot a.service) = true)
    (hf : getFields w.config (splitextRoot a.service) = .ok f)
    (hh : w.http = .ok s (some j)) :
    exitStatus (runMain a w).2 = (if s = 200 ∨ s = 204 then 0 else 1)
    ∧ ∀ j2 : JsonVal,
        exitStatus (runMain a { w with http := .ok s (some j2) }).2
          = exitStatus (runMain a w).2 := by
  have h1 : exitStatus (runMain a w).2 = (if s = 200 ∨ s = 204 then 0 else 1) := by
    rw [runMain_eq_check a w hcf hsec]
    rw [hh]
    exact check_exit_json _ _ _ _ _ _ hf
  refine ⟨h1, fun j2 => ?_⟩
  rw [h1]
  rw [runMain_eq_check a { w with http := .ok s (some j2) } hcf hsec]
  exact check_exit_json _ _ _ _ _ _ hf

/-- C2: every run ends with exit status 0, 1 or 2; a parsed healthy
response (status 200/204) gives 0; a parsed unhealthy response, a
connection failure, and a failed restart request give 1; a missing
configuration file or missing section gives 2. -/
theorem claim_C2_exit_code_contract (a : Args) (w : World) :
    (exitStatus (runMain a w).2 = 0 ∨ exitStatus (runMain a w).2 = 1 ∨
      exitStatus (runMain a w).2 = 2)
    ∧ (w.configFileExists = false ∨
        cfgHasSection w.config (splitextRoot a.service) = false →
        (runMain a w).2 = .exitMain 2)
    ∧ (∀ f s j, w.configFileExists = true →
        cfgHasSection w.config (splitextRoot a.service) = true →
        getFields w.config (splitextRoot a.service) = .ok f →
        w.http = .ok s (some j) → (s = 200 ∨ s = 204) →
        exitStatus (runMain a w).2 = 0)
    ∧ (∀ f s j, w.configFileExists = true →
        cfgHasSection w.config (splitextRoot a.service) = true →
        getFields w.config (splitextRoot a.service) = .ok f →
        w.http = .ok s (some j) → ¬(s = 200 ∨ s = 204) →
        exitStatus (runMain a w).2 = 1)
    ∧ (∀ f m, w.configFileExists = true →
        cfgHasSection w.config (splitextRoot a.service) = true →
        getFields w.config (splitextRoot a.service) = .ok f →
        w.http = .connError m →
        exitStatus (runMain a w).2 = 1) := by
  refine ⟨?_, ?_, ?_, ?_, ?_⟩
  · by_cases hcf : w.configFileExists = true
    · by_cases hsec : cfgHasSection w.config (splitextRoot a.service) = true
      · rw [runMain_eq_check a w hcf hsec]
        rcases check_exit_cases w.config (splitextRoot a.service) w.http w.dbusError with h | h
        · exact Or.inl h
        · exact Or.inr (Or.inl h)
      · simp only [Bool.not_eq_true] at hsec
        simp [runMain, hcf, hsec, exitStatus]
    · simp only [Bool.not_eq_true] at hcf
      simp [runMain, hcf, exitStatus]
  · rintro (hcf | hsec)
    · simp [runMain, hcf]
    · by_cases hcf : w.configFileExists = true
      · simp [runMain, hcf, hsec]
      · simp only [Bool.not_eq_true] at hcf
        simp [runMain, hcf]
  · intro f s j hcf hsec hf hh hs
    rw [runMain_eq_check a w hcf hsec, hh, check_exit_json _ _ _ _ _ _ hf]
    simp [hs]
  · intro f s j hcf hsec hf hh hs
    rw [runMain_eq_check a w hcf hsec, hh, check_exit_json _ _ _ _ _ _ hf]
    simp [hs]
  · intro f m hcf hsec hf hh
    rw [runMain_eq_check a w hcf hsec, hh, run_check_conn w.config _ _ m f hf]
    simp [mapOutcome, exitStatus]

/-- The claim-side condition under which the restart operation should
fire: the probe completed (configuration resolved, response received and
parsed), the status code is not 200/204, and the resolved
`failure_action` equals `restart`. -/
def restartTrigger (w : World) (srv : String) : Bool :=
  w.configFileExists && cfgHasSection w.config srv &&
    (match getFields w.config srv, w.http with
     | .ok _, .ok s (some _) =>
        !(decide (s = 200 ∨ s = 204)) &&
          decide (cfgGetD w.config srv "failure_action" "" = "restart")
     | _, _ => false)

theorem restartCalls_eq (a : Args) (w : World) :
    restartCalls (runMain a w).1 =
      if restartTrigger w (splitextRoot a.service)
      then [(splitextRoot a.service ++ ".service", "fail")] else [] := by
  by_cases hcf : w.configFileExists = true
  · by_cases hsec : cfgHasSection w.config (splitextRoot a.service) = true
    · rw [runMain_eq_check a w hcf hsec]
      cases hf : getFields w.config (splitextRoot a.service) with
      | error e =>
        rw [run_check_fields_err _ _ _ _ e hf]
        simp [restartCalls, restartTrigger, hcf, hsec, hf]
      | ok f =>
        cases hh : w.http with
        | connError m =>
          rw [run_check_conn _ _ _ m f hf]
          simp [restartCalls, restartTrigger, hcf, hsec, hf, hh]
        | ok s bodyJson =>
          cases bodyJson with
          | none =>
            rw [run_check_nojson _ _ _ s f hf]
            simp [restartCalls, restartTrigger, hcf, hsec, hf, hh]
          | some j =>
            by_cases hs : s = 200 ∨ s = 204
            · rw [run_check_norestart _ _ _ s j f hf (by tauto)]
              simp [restartCalls, restartTrigger, hcf, hsec, hf, hh, hs]
            · by_cases hfa : cfgGetD w.config (splitextRoot a.service) "failure_action" "" = "restart"
              · cases hdb : w.dbusError with
                | none =>
                  rw [run_check_restart_ok _ _ s j f hf hs hfa]
                  simp [restartCalls, restartTrigger, hcf, hsec, hf, hh, hs, hfa]
                | some m =>
                  rw [run_check_restart_fail _ _ s j f m hf hs hfa]
                  simp [restartCalls, restartTrigger, hcf, hsec, hf, hh, hs, hfa]
              · rw [run_check_norestart _ _ _ s j f hf (by tauto)]
                simp [restartCalls, restartTrigger, hcf, hsec, hf, hh, hs, hfa]
    · simp only [Bool.not_eq_true] at hsec
      simp [runMain, restartCalls, restartTrigger, hcf, hsec]
  · simp only [Bool.not_eq_true] at hcf
    simp [runMain, restartCalls, restartTrigger, hcf]

/-- C3: the DBus restart operation is invoked exactly when the probe
completed with a non-200/204 status and the resolved `failure_action`
equals `restart`, and then exactly once, on unit `<identity>.service`
with mode `fail`; in every other run no restart call occurs. -/
theorem claim_C3_restart_trigger (a : Args) (w : World) :
    restartCalls (runMain a w).1 =
      if restartTrigger w (splitextRoot a.service)
      then [(splitextRoot a.service ++ ".service", "fail")] else [] :=
  restartCalls_eq a w

/-- C4: when the probe is unhealthy and `failure_action = restart`, a
failing DBus restart request logs the bus error at critical level and
ends the process from inside the restart handler with status 1, and the
success confirmation is never logged; a successful restart request logs
the informational confirmation and the run still exits 1. -/
theorem claim_C4_restart_failure_fatal (a : Args) (w : World) (f : Fields)
    (s : Nat) (j : JsonVal)
    (hcf : w.configFileExists = true)
    (hsec : cfgHasSection w.config (splitextRoot a.service) = true)
    (hf : getFields w.config (splitextRoot a.service) = .ok f)
    (hh : w.http = .ok s (some j))
    (hs : ¬(s = 200 ∨ s = 204))
    (hfa : cfgGetD w.config (splitextRoot a.service) "failure_action" "" = "restart") :
    (∀ m, w.dbusError = some m →
        (runMain a w).2 = .exitRestart 1
        ∧ Event.logCritical m ∈ (runMain a w).1
        ∧ Event.logInfo (restartOkMsg (splitextRoot a.service)) ∉ (runMain a w).1)
    ∧ (w.dbusError = none →
        (runMain a w).2 = .exitMain 1
        ∧ exitStatus (runMain a w).2 = 1
        ∧ Event.logInfo (restartOkMsg (splitextRoot a.service)) ∈ (runMain a w).1) := by
  have hne := dumps_ne_restartOkMsg j (splitextRoot a.service)
  constructor
  · intro m hdb
    rw [runMain_eq_check a w hcf hsec, hh, hdb,
      run_check_restart_fail _ _ s j f m hf hs hfa]
    refine ⟨rfl, by simp, ?_⟩
    simp only [List.mem_cons, List.mem_singleton]
    intro hmem
    rcases hmem with h | h | h | h | h | h | h <;> simp_all
  · intro hdb
    rw [runMain_eq_check a w hcf hsec, hh, hdb,
      run_check_restart_ok _ _ s j f hf hs hfa]
    refine ⟨by simp [mapOutcome, hs], by simp [mapOutcome, exitStatus, hs], by simp⟩

/-- C5: with the configuration file missing, or present without a section
for the service identity, the run logs the corresponding critical message
and exits 2, and no HTTP GET is ever issued. -/
theorem claim_C5_config_error_no_network (a : Args) (w : World)
    (h : w.configFileExists = false ∨
      (w.configFileExists = true ∧
        cfgHasSection w.config (splitextRoot a.service) = false)) :
    (runMain a w).2 = .exitMain 2
    ∧ exitStatus (runMain a w).2 = 2
    ∧ (Event.logCritical cfileMissingMsg ∈ (runMain a w).1 ∨
        Event.logCritical (noSectionMsg (splitextRoot a.service)) ∈ (runMain a w).1)
    ∧ ∀ u, Event.httpGet u ∉ (runMain a w).1 := by
  rcases h with hcf | ⟨hcf, hsec⟩
  · simp [runMain, hcf, exitStatus]
  · simp [runMain, hcf, hsec, exitStatus]

/-- C6: a connection-level failure of the GET is caught, logged at
critical level with the connection error's message, exits with status 1
through the normal return path, and no informational line (in particular
no payload line) is ever logged; moreover any run that resolves its
configuration and ends in a classified outcome (no uncaught exception)
without logging an informational line must have had a connection
failure — it is the only such failure class. -/
theorem claim_C6_connection_failure (a : Args) (w : World) (f : Fields) (m : String)
    (hcf : w.configFileExists = true)
    (hsec : cfgHasSection w.config (splitextRoot a.service) = true)
    (hf : getFields w.config (splitextRoot a.service) = .ok f)
    (hh : w.http = .connError m) :
    (runMain a w).2 = .exitMain 1
    ∧ Event.logCritical m ∈ (runMain a w).1
    ∧ (∀ p, Event.logInfo p ∉ (runMain a w).1)
    ∧ (∀ (a2 : Args) (w2 : World) (f2 : Fields),
        w2.configFileExists = true →
        cfgHasSection w2.config (splitextRoot a2.service) = true →
        getFields w2.config (splitextRoot a2.service) = .ok f2 →
        (∀ e, (runMain a2 w2).2 ≠ .uncaught e) →
        (∀ p, Event.logInfo p ∉ (runMain a2 w2).1) →
        ∃ m2, w2.http = .connError m2) := by
  refine ⟨?_, ?_, ?_, ?_⟩
  · rw [runMain_eq_check a w hcf hsec, hh, run_check_conn _ _ _ m f hf]
    rfl
  · rw [runMain_eq_check a w hcf hsec, hh, run_check_conn _ _ _ m f hf]
    simp
  · intro p
    rw [runMain_eq_check a w hcf hsec, hh, run_check_conn _ _ _ m f hf]
    simp
  · intro a2 w2 f2 hcf2 hsec2 hf2 hnu hni
    cases hh2 : w2.http with
    | connError m2 => exact ⟨m2, rfl⟩
    | ok s bodyJson =>
      exfalso
      cases bodyJson with
      | none =>
        apply hnu PyExc.jsonDecodeError
        rw [runMain_eq_check a2 w2 hcf2 hsec2, hh2, run_check_nojson _ _ _ s f2 hf2]
        rfl
      | some j =>
        apply hni (dumps j)
        by_cases hs : s = 200 ∨ s = 204
        · rw [runMain_eq_check a2 w2 hcf2 hsec2, hh2,
            run_check_norestart _ _ _ s j f2 hf2 (by tauto)]
          simp
        · by_cases hfa : cfgGetD w2.config (splitextRoot a2.service) "failure_action" "" = "restart"
          · cases hdb : w2.dbusError with
            | none =>
              rw [runMain_eq_check a2 w2 hcf2 hsec2, hh2, hdb,
                run_check_restart_ok _ _ s j f2 hf2 hs hfa]
              simp
            | some m2 =>
              rw [runMain_eq_check a2 w2 hcf2 hsec2, hh2, hdb,
                run_check_restart_fail _ _ s j f2 m2 hf2 hs hfa]
              simp
          · rw [runMain_eq_check a2 w2 hcf2 hsec2, hh2,
              run_check_norestart _ _ _ s j f2 hf2 (by tauto)]
            simp

/-- C7: whenever a response is received and parsed, the rendered payload
is logged exactly once at informational level, it precedes every restart
call in the trace, and the rendered line contains no newline character. -/
theorem claim_C7_payload_logged_once (a : Args) (w : World) (f : Fields)
    (s : Nat) (j : JsonVal)
    (hcf : w.configFileExists = true)
    (hsec : cfgHasSection w.config (splitextRoot a.service) = true)
    (hf : getFields w.config (splitextRoot a.service) = .ok f)
    (hh : w.http = .ok s (some j)) :
    countEvent (runMain a w).1 (Event.logInfo (dumps j)) = 1
    ∧ Event.logInfo (dumps j) ∈
        (runMain a w).1.takeWhile (fun e => !(isRestartEvent e))
    ∧ '\n' ∉ (dumps j).data := by
  have hne := dumps_ne_restartOkMsg j (splitextRoot a.service)
  refine ⟨?_, ?_, dumps_no_newline j⟩
  · by_cases hs : s = 200 ∨ s = 204
    · rw [runMain_eq_check a w hcf hsec, hh,
        run_check_norestart _ _ _ s j f hf (by tauto)]
      simp [countEvent, List.filter]
    · by_cases hfa : cfgGetD w.config (splitextRoot a.service) "failure_action" "" = "restart"
      · cases hdb : w.dbusError with
        | none =>
          rw [runMain_eq_check a w hcf hsec, hh, hdb,
            run_check_restart_ok _ _ s j f hf hs hfa]
          simp [countEvent, List.filter, hne, Ne.symm hne]
        | some m =>
          rw [runMain_eq_check a w hcf hsec, hh, hdb,
            run_check_restart_fail _ _ s j f m hf hs hfa]
          simp [countEvent, List.filter]
      · rw [runMain_eq_check a w hcf hsec, hh,
          run_check_norestart _ _ _ s j f hf (by tauto)]
        simp [countEvent, List.filter]
  · by_cases hs : s = 200 ∨ s = 204
    · rw [runMain_eq_check a w hcf hsec, hh,
        run_check_norestart _ _ _ s j f hf (by tauto)]
      simp [List.takeWhile, isRestartEvent]
    · by_cases hfa : cfgGetD w.config (splitextRoot a.service) "failure_action" "" = "restart"
      · cases hdb : w.dbusError with
        | none =>
          rw [runMain_eq_check a w hcf hsec, hh, hdb,
            run_check_restart_ok _ _ s j f hf hs hfa]
          simp [List.takeWhile, isRestartEvent]
        | some m =>
          rw [runMain_eq_check a w hcf hsec, hh, hdb,
            run_check_restart_fail _ _ s j f m hf hs hfa]
          simp [List.takeWhile, isRestartEvent]
      · rw [runMain_eq_check a w hcf hsec, hh,
          run_check_norestart _ _ _ s j f hf (by tauto)]
        simp [List.takeWhile, isRestartEvent]
/-! ### Invariance under the `on_failure_classes` option (C8) -/

theorem getFields_congr (c1 c2 : IniConfig) (srv : String)
    (hkeys : ∀ key, key ≠ "on_failure_classes" → cfgGet c1 srv key = cfgGet c2 srv key) :
    getFields c1 srv = getFields c2 srv := by
  unfold getFields getbooleanFb getReq getintReq
  rw [hkeys "tls" (by decide), hkeys "host" (by decide),
    hkeys "port" (by decide), hkeys "endpoint" (by decide)]

theorem run_check_congr (c1 c2 : IniConfig) (srv : String) (http : HttpResult)
    (db : Option String)
    (hkeys : ∀ key, key ≠ "on_failure_classes" → cfgGet c1 srv key = cfgGet c2 srv key) :
    run_check c1 srv http db = run_check c2 srv http db := by
  have hgf := getFields_congr c1 c2 srv hkeys
  have hfa : cfgGetD c1 srv "failure_action" "" = cfgGetD c2 srv "failure_action" "" := by
    unfold cfgGetD
    rw [hkeys "failure_action" (by decide)]
  simp only [run_check, hgf, hfa]

/-- C8 (amended): the `on_failure_classes` value is parsed by splitting
the raw string on commas — defaulting to the one-element list holding the
empty string when the key is absent, since splitting the fallback `''`
yields `['']` — and the health decision, the restart behaviour, the
trace and the exit status of every run are unchanged under any change to
(or removal of) that option. -/
theorem claim_C8_on_failure_classes_ignored (a : Args) (w1 w2 : World)
    (hcf : w1.configFileExists = w2.configFileExists)
    (hhttp : w1.http = w2.http)
    (hdb : w1.dbusError = w2.dbusError)
    (hsec : ∀ sec, cfgHasSection w1.config sec = cfgHasSection w2.config sec)
    (hkeys : ∀ sec key, key ≠ "on_failure_classes" →
      cfgGet w1.config sec key = cfgGet w2.config sec key) :
    runMain a w1 = runMain a w2
    ∧ (∀ cfg srv, cfgGet cfg srv "on_failure_classes" = none →
        parseOnFailureClasses cfg srv = [""])
    ∧ (∀ cfg srv v, cfgGet cfg srv "on_failure_classes" = some v →
        parseOnFailureClasses cfg srv = pySplitChar v.data ',' []) := by
  refine ⟨?_, ?_, ?_⟩
  · have hrc := run_check_congr w1.config w2.config (splitextRoot a.service)
      w2.http w2.dbusError (hkeys (splitextRoot a.service))
    simp only [runMain, hcf, hhttp, hdb, hsec (splitextRoot a.service), hrc]
  · intro cfg srv h
    simp [parseOnFailureClasses, cfgGetD, h]
    decide
  · intro cfg srv v h
    simp [parseOnFailureClasses, cfgGetD, h]

/-! ### The service identity (C10) -/

theorem strMkData (s : String) : String.mk s.data = s := by
  cases s
  rfl

theorem rfindIdx_eq_none (ys : List Char) (c : Char) (h : c ∉ ys) :
    rfindIdx ys c = none := by
  induction ys with
  | nil => rfl
  | cons y tl ih =>
    simp only [List.mem_cons, not_or] at h
    simp [rfindIdx, ih h.2, Ne.symm h.1]

theorem rfindIdx_append (xs ys : List Char) (c : Char) :
    rfindIdx (xs ++ ys) c =
      match rfindIdx ys c with
      | some i => some (xs.length + i)
      | none => rfindIdx xs c := by
  induction xs with
  | nil => cases h : rfindIdx ys c <;> simp [rfindIdx, h]
  | cons x tl ih =>
    cases h : rfindIdx ys c with
    | some i =>
      simp only [h] at ih
      rw [List.cons_append, rfindIdx, ih]
      simp only [List.length_cons, Option.some.injEq]
      omega
    | none =>
      simp only [h] at ih
      cases h2 : rfindIdx tl c <;>
        simp [List.cons_append, rfindIdx, ih, h2]

theorem splitextRoot_strip (stem ext : String)
    (hne : ∃ c ∈ stem.data, c ≠ '.')
    (hext : '.' ∉ ext.data) (hs1 : '/' ∉ stem.data) (hs2 : '/' ∉ ext.data) :
    splitextRoot (stem ++ "." ++ ext) = stem := by
  have hdata : (stem ++ "." ++ ext).data = stem.data ++ '.' :: ext.data := by
    rw [String.data_append, String.data_append]
    simp
  have hdot : rfindIdx (stem.data ++ '.' :: ext.data) '.' = some stem.data.length := by
    rw [show stem.data ++ '.' :: ext.data = (stem.data ++ ['.']) ++ ext.data by simp]
    rw [rfindIdx_append, rfindIdx_eq_none ext.data '.' hext, rfindIdx_append]
    simp [rfindIdx]
  have hsl : rfindIdx (stem.data ++ '.' :: ext.data) '/' = none := by
    apply rfindIdx_eq_none
    intro hmem
    rcases List.mem_append.mp hmem with h | h
    · exact hs1 h
    · rcases List.mem_cons.mp h with h | h
      · simp at h
      · exact hs2 h
  simp only [splitextRoot]
  rw [hdata, hdot, hsl]
  simp only [Nat.zero_le, if_true, List.drop_zero]
  have htake : (stem.data ++ '.' :: ext.data).take stem.data.length = stem.data :=
    List.take_left stem.data ('.' :: ext.data)
  rw [htake]
  obtain ⟨c, hc, hcne⟩ := hne
  have hany : stem.data.any (fun c => decide (c ≠ '.')) = true := by
    rw [List.any_eq_true]
    exact ⟨c, hc, by simpa using hcne⟩
  simp only [hany, if_true]

theorem splitextRoot_no_dot (s : String) (h : '.' ∉ s.data) :
    splitextRoot s = s := by
  simp only [splitextRoot]
  rw [rfindIdx_eq_none s.data '.' h]

theorem splitextRoot_leading_dot (ext : String)
    (hext : '.' ∉ ext.data) (hs : '/' ∉ ext.data) :
    splitextRoot ("." ++ ext) = "." ++ ext := by
  have hdata : ("." ++ ext).data = '.' :: ext.data := by
    rw [String.data_append]
    simp
  have hdot : rfindIdx ('.' :: ext.data) '.' = some 0 := by
    simp [rfindIdx, rfindIdx_eq_none ext.data '.' hext]
  have hsl : rfindIdx ('.' :: ext.data) '/' = none := by
    apply rfindIdx_eq_none
    intro hmem
    rcases List.mem_cons.mp hmem with h | h
    · simp at h
    · exact hs h
  simp only [splitextRoot]
  rw [hdata, hdot, hsl]
  simp

/-- The identity function claim C10 describes, modelled from its words:
the argument with everything from the final dot onward removed, whatever
the extension is. -/
def stripLastDotExt (s : String) : String :=
  match rfindIdx s.data '.' with
  | none => s
  | some d => String.mk (s.data.take d)

/-- C10 counterexample: for the argument `".service"` the claim as stated
predicts identity `""`, while the program (via `os.path.splitext`) keeps
`".service"` unchanged. -/
theorem claim_C10_counterexample :
    stripLastDotExt ".service" = "" ∧ splitextRoot ".service" = ".service"
    ∧ splitextRoot ".service" ≠ stripLastDotExt ".service" := by decide

/-- C10 (amended): the service identity is the argument with its final
dot-separated extension removed whenever some character of the part
before the final dot is not itself a dot; an argument with no dot, or a
leading-dot name such as `".service"` whose characters before the final
dot are all dots, is used unchanged.  The identity keys the
configuration-section lookup, and every restart call a run ever makes is
addressed to `<identity>.service` with mode `fail`. -/
theorem claim_C10_service_identity :
    (∀ stem ext : String, (∃ c ∈ stem.data, c ≠ '.') → '.' ∉ ext.data →
      '/' ∉ stem.data → '/' ∉ ext.data → splitextRoot (stem ++ "." ++ ext) = stem)
    ∧ (∀ s : String, '.' ∉ s.data → splitextRoot s = s)
    ∧ (∀ ext : String, '.' ∉ ext.data → '/' ∉ ext.data →
        splitextRoot ("." ++ ext) = "." ++ ext)
    ∧ (∀ (a : Args) (w : World), w.configFileExists = true →
        cfgHasSection w.config (splitextRoot a.service) = false →
        (runMain a w).2 = .exitMain 2)
    ∧ (∀ (a : Args) (w : World) (u m : String),
        Event.restartUnit u m ∈ (runMain a w).1 →
        u = splitextRoot a.service ++ ".service" ∧ m = "fail") := by
  refine ⟨splitextRoot_strip, splitextRoot_no_dot, splitextRoot_leading_dot, ?_, ?_⟩
  · intro a w hcf hsec
    simp [runMain, hcf, hsec]
  · intro a w u m hmem
    have h1 : (u, m) ∈ restartCalls (runMain a w).1 := by
      unfold restartCalls
      rw [List.mem_filterMap]
      exact ⟨_, hmem, rfl⟩
    rw [restartCalls_eq a w] at h1
    by_cases ht : restartTrigger w (splitextRoot a.service) = true
    · rw [if_pos ht] at h1
      simpa using h1
    · rw [if_neg ht] at h1
      simp at h1

/-! ### Concrete stores, worlds and witnesses -/

/-- C8 counterexample: with the key absent, the parsed value is the
one-element list containing the empty string, not the empty list. -/
theorem claim_C8_counterexample :
    parseOnFailureClasses [] "nova-api" = [""]
    ∧ parseOnFailureClasses [] "nova-api" ≠ ([] : List String) := by decide

/-- The spec's example section, used by the concrete test runs. -/
def cfgNova : IniConfig :=
  [("nova-api", [("tls", "false"), ("host", "127.0.0.1"), ("port", "8989"),
    ("endpoint", "/healthcheck")])]

/-- The example section with `failure_action = restart`. -/
def cfgNovaRestart : IniConfig :=
  [("nova-api", [("tls", "false"), ("host", "127.0.0.1"), ("port", "8989"),
    ("endpoint", "/healthcheck"), ("failure_action", "restart")])]

/-- The restart section with an `on_failure_classes` value added. -/
def cfgNovaOfc : IniConfig :=
  [("nova-api", [("tls", "false"), ("host", "127.0.0.1"), ("port", "8989"),
    ("endpoint", "/healthcheck"), ("failure_action", "restart"),
    ("on_failure_classes", "api,db")])]

/-- The example section without the required `port` key. -/
def cfgNoPort : IniConfig :=
  [("nova-api", [("tls", "false"), ("host", "127.0.0.1"),
    ("endpoint", "/healthcheck")])]

/-- The example section with a non-integer `port` value. -/
def cfgBadPort : IniConfig :=
  [("nova-api", [("tls", "false"), ("host", "127.0.0.1"), ("port", "eight"),
    ("endpoint", "/healthcheck")])]

/-- A payload whose own `healthy` field claims the service is down. -/
def payloadClaimsUnhealthy : JsonVal :=
  .jobj (.ocons "detailed" (.jbool false) (.ocons "healthy" (.jbool false) .onil))

/-- The resolved settings of `cfgNova`. -/
def novaFields : Fields :=
  { tls := false, host := "127.0.0.1", port := 8989, endpoint := "/healthcheck" }

/-- World: healthy response whose payload claims unhealthy. -/
def wHealthy : World :=
  { configFileExists := true, config := cfgNova,
    http := .ok 200 (some payloadClaimsUnhealthy), dbusError := none }

/-- World: unhealthy response, restart configured, DBus call failing. -/
def wRestartFail : World :=
  { configFileExists := true, config := cfgNovaRestart,
    http := .ok 503 (some .jnull), dbusError := some "dbus error" }

/-- World: as `wRestartFail` with `on_failure_classes` set. -/
def wOfc : World :=
  { configFileExists := true, config := cfgNovaOfc,
    http := .ok 503 (some .jnull), dbusError := some "dbus error" }

/-- World: connection refused. -/
def wConnFail : World :=
  { configFileExists := true, config := cfgNova,
    http := .connError "connection refused", dbusError := none }

/-- World: configuration file absent. -/
def wNoFile : World :=
  { configFileExists := false, config := [],
    http := .ok 200 (some .jnull), dbusError := none }

/-- C9 (code bug): with the section present but `port` missing, or its
value not an integer, the run dies on an uncaught exception (exit status
1 through the interpreter), not with the configuration-error exit code 2
promised by the script's header comment and the spec. -/
theorem claim_C9_port_error_exits_one :
    (runMain ⟨"nova-api", false⟩
        { configFileExists := true, config := cfgNoPort,
          http := .ok 200 (some .jnull), dbusError := none }).2
      = .uncaught (.noOptionError "port" "nova-api")
    ∧ exitStatus (runMain ⟨"nova-api", false⟩
        { configFileExists := true, config := cfgNoPort,
          http := .ok 200 (some .jnull), dbusError := none }).2 = 1
    ∧ (runMain ⟨"nova-api", false⟩
        { configFileExists := true, config := cfgBadPort,
          http := .ok 200 (some .jnull), dbusError := none }).2
      = .uncaught (.valueError "invalid literal for int with base 10: eight")
    ∧ exitStatus (runMain ⟨"nova-api", false⟩
        { configFileExists := true, config := cfgBadPort,
          http := .ok 200 (some .jnull), dbusError := none }).2 = 1 := by
  decide

/-- Witness for C1: status 200 with a payload claiming unhealthy still
exits 0, and replacing the payload never changes the status. -/
theorem claim_C1_witness :
    exitStatus (runMain ⟨"nova-api.service", false⟩ wHealthy).2
      = (if (200 : Nat) = 200 ∨ (200 : Nat) = 204 then 0 else 1)
    ∧ ∀ j2 : JsonVal,
        exitStatus (runMain ⟨"nova-api.service", false⟩
          { wHealthy with http := .ok 200 (some j2) }).2
        = exitStatus (runMain ⟨"nova-api.service", false⟩ wHealthy).2 :=
  claim_C1_health_by_status_only ⟨"nova-api.service", false⟩ wHealthy novaFields
    200 payloadClaimsUnhealthy rfl (by decide) rfl rfl

/-- Witness for C2: the healthy clause at a concrete run. -/
theorem claim_C2_witness :
    exitStatus (runMain ⟨"nova-api.service", false⟩ wHealthy).2 = 0 :=
  (claim_C2_exit_code_contract ⟨"nova-api.service", false⟩ wHealthy).2.2.1
    novaFields 200 payloadClaimsUnhealthy rfl (by decide) rfl rfl (by decide)

/-- Witness for C4: the failing restart call at a concrete run. -/
theorem claim_C4_witness :
    (runMain ⟨"nova-api", false⟩ wRestartFail).2 = .exitRestart 1
    ∧ Event.logCritical "dbus error" ∈ (runMain ⟨"nova-api", false⟩ wRestartFail).1
    ∧ Event.logInfo (restartOkMsg (splitextRoot "nova-api"))
        ∉ (runMain ⟨"nova-api", false⟩ wRestartFail).1 :=
  (claim_C4_restart_failure_fatal ⟨"nova-api", false⟩ wRestartFail novaFields
    503 .jnull rfl (by decide) rfl rfl (by decide) (by decide)).1 "dbus error" rfl

/-- Witness for C5: the missing configuration file at a concrete run. -/
theorem claim_C5_witness :
    (runMain ⟨"nova-api", false⟩ wNoFile).2 = .exitMain 2
    ∧ exitStatus (runMain ⟨"nova-api", false⟩ wNoFile).2 = 2
    ∧ (Event.logCritical cfileMissingMsg ∈ (runMain ⟨"nova-api", false⟩ wNoFile).1 ∨
        Event.logCritical (noSectionMsg (splitextRoot "nova-api"))
          ∈ (runMain ⟨"nova-api", false⟩ wNoFile).1)
    ∧ ∀ u, Event.httpGet u ∉ (runMain ⟨"nova-api", false⟩ wNoFile).1 :=
  claim_C5_config_error_no_network ⟨"nova-api", false⟩ wNoFile (Or.inl rfl)

/-- Witness for C6: a refused connection at a concrete run. -/
theorem claim_C6_witness :
    (runMain ⟨"nova-api", false⟩ wConnFail).2 = .exitMain 1
    ∧ Event.logCritical "connection refused" ∈ (runMain ⟨"nova-api", false⟩ wConnFail).1
    ∧ ∀ p, Event.logInfo p ∉ (runMain ⟨"nova-api", false⟩ wConnFail).1 :=
  ⟨(claim_C6_connection_failure ⟨"nova-api", false⟩ wConnFail novaFields
      "connection refused" rfl (by decide) rfl rfl).1,
   (claim_C6_connection_failure ⟨"nova-api", false⟩ wConnFail novaFields
      "connection refused" rfl (by decide) rfl rfl).2.1,
   (claim_C6_connection_failure ⟨"nova-api", false⟩ wConnFail novaFields
      "connection refused" rfl (by decide) rfl rfl).2.2.1⟩

/-- Witness for C7: the payload line of a concrete run. -/
theorem claim_C7_witness :
    countEvent (runMain ⟨"nova-api.service", false⟩ wHealthy).1
        (Event.logInfo (dumps payloadClaimsUnhealthy)) = 1
    ∧ Event.logInfo (dumps payloadClaimsUnhealthy) ∈
        (runMain ⟨"nova-api.service", false⟩ wHealthy).1.takeWhile
          (fun e => !(isRestartEvent e))
    ∧ '\n' ∉ (dumps payloadClaimsUnhealthy).data :=
  claim_C7_payload_logged_once ⟨"nova-api.service", false⟩ wHealthy novaFields
    200 payloadClaimsUnhealthy rfl (by decide) rfl rfl

/-- Witness for C8: adding `on_failure_classes = api,db` changes nothing
about a concrete run. -/
theorem claim_C8_witness :
    runMain ⟨"nova-api", false⟩ wOfc = runMain ⟨"nova-api", false⟩ wRestartFail :=
  (claim_C8_on_failure_classes_ignored ⟨"nova-api", false⟩ wOfc wRestartFail
    rfl rfl rfl
    (by
      intro sec
      by_cases h : "nova-api" = sec <;>
        simp [wOfc, wRestartFail, cfgNovaOfc, cfgNovaRestart, cfgHasSection, cfgFindSect, h])
    (by
      intro sec key hk
      by_cases h : "nova-api" = sec <;>
        simp [wOfc, wRestartFail, cfgNovaOfc, cfgNovaRestart, cfgGet, cfgFindSect,
          sectGet, h, Ne.symm hk])).1

/-- Witness for C10: the examples named by the claim. -/
theorem claim_C10_witness :
    splitextRoot "nova-api.anything" = "nova-api"
    ∧ splitextRoot "nova-api" = "nova-api" :=
  ⟨claim_C10_service_identity.1 "nova-api" "anything"
      ⟨'n', by decide, by decide⟩ (by decide) (by decide) (by decide),
   claim_C10_service_identity.2.1 "nova-api" (by decide)⟩
